import Mathlib

/-!
Shallow embedding of the perception-action control core of the
`osrs_vlm_agent` repository (window management, vision response parsing,
skill library, action executor, and the firemaking orchestrator loop).

External collaborators (the vision provider network call, the OS input
simulation, the screen grab, the filesystem) are modelled as explicit
oracle parameters: an `Option String` for a perception response (`none`
when the provider call failed or raised), a `SimOutcome` for the
underlying input-simulation call, a `Bool` for whether the frame grab
succeeded.  Python exceptions crossing a function boundary are modelled
with `Except String`; a `try/except` block is the corresponding `match`.
-/

namespace OsrsAgent

/-! ## Python integer parsing

`int(s)` on a string: Python strips surrounding whitespace, accepts an
optional single `+`/`-` sign followed by a nonempty run of decimal
digits, and raises `ValueError` otherwise (modelled as `none`).
The code always calls it as `int(response.strip())`. -/

/-- Parse a nonempty all-digit string to a natural number. -/
def parseDigits (cs : List Char) : Option Nat :=
  match cs with
  | [] => none
  | _ =>
    if cs.all Char.isDigit then
      some (cs.foldl (fun acc c => acc * 10 + (c.toNat - '0'.toNat)) 0)
    else none

/-- Model of Python `str.strip()` (and of the whitespace stripping
`int()` itself performs): drop whitespace from both ends. -/
def stripChars (cs : List Char) : List Char :=
  ((cs.dropWhile Char.isWhitespace).reverse.dropWhile Char.isWhitespace).reverse

/-- Model of Python `int(s.strip())`: optional sign, then digits;
any other shape raises `ValueError`, modelled as `none`. -/
def pyInt (s : String) : Option Int :=
  match stripChars s.data with
  | '-' :: rest => (parseDigits rest).map (fun n => -(n : Int))
  | '+' :: rest => (parseDigits rest).map (fun n => (n : Int))
  | l => (parseDigits l).map (fun n => (n : Int))

/-- Python truthiness of a string: `""` is falsy, everything else truthy. -/
def pyTruthy (s : String) : Bool := !s.isEmpty

/-! ## vision.py — `VisionModel`

`analyze_screenshot` returns `None` when the client was never
initialized (no credential / unknown provider) and `None` when the
provider call raised; otherwise the provider's text.  The provider call
is the oracle `providerResponse : Option String` (`none` = the call
raised). -/

/-- Embedding of `VisionModel.analyze_screenshot`: no client → `None`;
provider raised → `None`; otherwise the response text. -/
def analyze_screenshot (clientAvailable : Bool) (providerResponse : Option String) :
    Option String :=
  if clientAvailable then providerResponse else none

/-- Embedding of `VisionModel.find_tinderbox` (vision.py lines 175-192):
`if response:` guards on Python truthiness, then
`slot = int(response.strip()); return slot if slot >= 0 else None`,
with a bare `except` returning `None` on parse failure. -/
def find_tinderbox (clientAvailable : Bool) (providerResponse : Option String) :
    Option Int :=
  match analyze_screenshot clientAvailable providerResponse with
  | some response =>
    if pyTruthy response then
      match pyInt response with
      | some slot => if slot ≥ 0 then some slot else none
      | none => none
    else none
  | none => none

/-- Embedding of `VisionModel.find_logs` (vision.py lines 194-211); the
parsing logic is identical to `find_tinderbox`. -/
def find_logs (clientAvailable : Bool) (providerResponse : Option String) :
    Option Int :=
  match analyze_screenshot clientAvailable providerResponse with
  | some response =>
    if pyTruthy response then
      match pyInt response with
      | some slot => if slot ≥ 0 then some slot else none
      | none => none
    else none
  | none => none

/-- Embedding of the generic-item branch of `SkillLibrary.find_item_visual`
(skills.py lines 99-109):
`slot = int(response.strip()) if response else None;`
`slot = slot if slot and slot >= 0 else None` inside `try/except`.
Note the Python truthiness test `slot and slot >= 0`: a parsed `0` is
falsy, so slot 0 maps to `None`. -/
def find_item_generic (clientAvailable : Bool) (providerResponse : Option String) :
    Option Int :=
  match analyze_screenshot clientAvailable providerResponse with
  | some response =>
    if pyTruthy response then
      match pyInt response with
      | some slot => if slot ≠ 0 ∧ slot ≥ 0 then some slot else none
      | none => none
    else none
  | none => none

/-! ## window_manager.py — `WindowManager`

The stored `window_config` dictionary is a `Region` record (the keys the
code writes and reads: `x`, `y`, `width`, `height`, `title`); the
manager's state is `Option Region` (`None` until detection or load
succeeds). -/

/-- The window-region record `{x, y, width, height, title}` held in
`WindowManager.window_config` and in the persisted file. -/
structure Region where
  x : Int
  y : Int
  width : Int
  height : Int
  title : String
deriving Repr, DecidableEq

/-- Embedding of `WindowManager.is_ready` (window_manager.py lines 190-192):
`return self.window_config is not None`. -/
def is_ready (windowConfig : Option Region) : Bool :=
  windowConfig.isSome

/-- Embedding of `WindowManager.get_absolute_coords` (window_manager.py
lines 180-188): raises `ValueError("No window config available")` when
`window_config` is `None`, else returns
`(config['x'] + relative_x, config['y'] + relative_y)`. -/
def get_absolute_coords (windowConfig : Option Region)
    (relative_x relative_y : Int) : Except String (Int × Int) :=
  match windowConfig with
  | none => .error "No window config available"
  | some c => .ok (c.x + relative_x, c.y + relative_y)

/-- Embedding of the candidate filter in `WindowManager._search_windows`
(window_manager.py line 70): a window whose title matches is kept only
`if geo and geo['width'] > 0 and geo['height'] > 0`. -/
def search_window_keep (geo : Region) : Bool :=
  geo.width > 0 && geo.height > 0

/-! ### Persisted region file (save_config / load_or_detect)

`save_config` runs `json.dump(self.window_config, f)`; `load_or_detect`
runs `json.load(f)`.  The JSON text encoding is the standard-library
collaborator; the embedding keeps the structured JSON value the code
hands to `json.dump` — an object with the five keys — and `load`
reads the same keys back, as `json.load` reproduces the dumped object
for a dictionary of ints and strings. -/

/-- A JSON scalar as stored in the window-config object. -/
inductive JValue where
  | jint (n : Int)
  | jstr (s : String)
deriving Repr, DecidableEq

/-- Look up the first binding of a key in a JSON object (association list). -/
def jlookup (obj : List (String × JValue)) (key : String) : Option JValue :=
  match obj with
  | [] => none
  | (k, v) :: rest => if k = key then some v else jlookup rest key

/-- Embedding of `WindowManager.save_config` (window_manager.py lines
149-154): the JSON object written for a stored region. -/
def save_config (r : Region) : List (String × JValue) :=
  [("x", .jint r.x), ("y", .jint r.y),
   ("width", .jint r.width), ("height", .jint r.height),
   ("title", .jstr r.title)]

/-- Embedding of the load half of `WindowManager.load_or_detect`
(window_manager.py lines 127-147) together with the field accesses the
manager performs on the loaded object: the five keys are read back as
ints and a string. -/
def load_config (obj : List (String × JValue)) : Option Region :=
  match jlookup obj "x", jlookup obj "y", jlookup obj "width",
      jlookup obj "height", jlookup obj "title" with
  | some (.jint x), some (.jint y), some (.jint w), some (.jint h),
      some (.jstr t) =>
    some { x := x, y := y, width := w, height := h, title := t }
  | _, _, _, _, _ => none

/-! ## action_executor.py — `ActionExecutor`

The OS input-simulation calls (`pyautogui.moveTo`, `.click`, `.drag`,
`.typewrite`, `.press`) are one oracle per primitive invocation: the
whole `try` body either runs to completion or raises.  Random jitter
offsets and durations are passed in as explicit parameters.  A primitive
returns `Except String (List String)`: `.error` models an exception
propagating to the caller, `.ok logs` a normal return together with the
log lines it emitted. -/

/-- Outcome of the underlying input-simulation call inside a primitive's
`try` block. -/
inductive SimOutcome where
  | ok
  | failure (msg : String)
deriving Repr, DecidableEq

/-- Embedding of `ActionExecutor._randomize_point`: add the sampled
offset (the random sample is the explicit `offset` parameter). -/
def randomize_point (p : Int × Int) (offset : Int × Int) : Int × Int :=
  (p.1 + offset.1, p.2 + offset.2)

/-- Embedding of `ActionExecutor.move_mouse` (action_executor.py lines
43-66): coordinates are resolved (outside any `try`, so a missing window
config raises to the caller), jitter applied, then the `pyautogui.moveTo`
call runs inside `try/except`, which logs and swallows any failure. -/
def move_mouse (windowConfig : Option Region) (x y : Int)
    (relative randomize : Bool) (offset : Int × Int) (sim : SimOutcome) :
    Except String (List String) := do
  let p ← if relative then get_absolute_coords windowConfig x y
          else .ok (x, y)
  let p := if randomize then randomize_point p offset else p
  let (ax, ay) := p
  match sim with
  | .ok => .ok [s!"Mouse moved to ({ax}, {ay})"]
  | .failure e => .ok [s!"Failed to move mouse: {e}"]

/-- Embedding of `ActionExecutor.click` (action_executor.py lines
68-107): resolve coordinates (outside the `try`), jitter, then the
move-sleep-click sequence inside `try/except`, logging and swallowing
any failure. -/
def click (windowConfig : Option Region) (x y : Int)
    (relative randomize : Bool) (offset : Int × Int) (sim : SimOutcome) :
    Except String (List String) := do
  let p ← if relative then get_absolute_coords windowConfig x y
          else .ok (x, y)
  let p := if randomize then randomize_point p offset else p
  let (ax, ay) := p
  match sim with
  | .ok => .ok [s!"Clicked ({ax}, {ay})"]
  | .failure e => .ok [s!"Failed to click: {e}"]

/-- Embedding of `ActionExecutor.right_click` (action_executor.py lines
109-112): delegates to `click` with `button='right'`. -/
def right_click (windowConfig : Option Region) (x y : Int)
    (relative randomize : Bool) (offset : Int × Int) (sim : SimOutcome) :
    Except String (List String) :=
  click windowConfig x y relative randomize offset sim

/-- Embedding of `ActionExecutor.drag` (action_executor.py lines
114-150): both endpoints are resolved outside the `try`, then the
move-drag sequence runs inside `try/except`. -/
def drag (windowConfig : Option Region) (sx sy ex ey : Int)
    (relative randomize : Bool) (offs offe : Int × Int) (sim : SimOutcome) :
    Except String (List String) := do
  let ps ← if relative then get_absolute_coords windowConfig sx sy
           else .ok (sx, sy)
  let pe ← if relative then get_absolute_coords windowConfig ex ey
           else .ok (ex, ey)
  let ps := if randomize then randomize_point ps offs else ps
  let pe := if randomize then randomize_point pe offe else pe
  let (asx, asy) := ps
  let (aex, aey) := pe
  match sim with
  | .ok => .ok [s!"DRAG from ({asx}, {asy}) to ({aex}, {aey})"]
  | .failure e => .ok [s!"Failed to drag: {e}"]

/-- Embedding of `ActionExecutor.type_text` (action_executor.py lines
152-168): the `pyautogui.typewrite` call runs inside `try/except`. -/
def type_text (text : String) (sim : SimOutcome) :
    Except String (List String) :=
  match sim with
  | .ok => .ok [s!"TYPE {text}"]
  | .failure e => .ok [s!"Failed to type text: {e}"]

/-- Embedding of `ActionExecutor.press_key` (action_executor.py lines
170-177): the `pyautogui.press` call runs inside `try/except`. -/
def press_key (key : String) (sim : SimOutcome) :
    Except String (List String) :=
  match sim with
  | .ok => .ok [s!"KEY_PRESS {key}"]
  | .failure e => .ok [s!"Failed to press key: {e}"]

/-! ## skills.py — `SkillLibrary`

The library's grid state: `inventory_start_x/y` begin as `None` (the
calibration TODO), `slot_width = 42`, `slot_height = 36`,
`slots_per_row = 4`.  Python `//` and `%` on ints are floor division
and its remainder, `Int.fdiv` / `Int.fmod`. -/

/-- The grid-layout state of `SkillLibrary.__init__`. -/
structure SkillLib where
  inventory_start : Option (Int × Int)
  slot_width : Int
  slot_height : Int
  slots_per_row : Int
deriving Repr, DecidableEq

/-- The state `SkillLibrary.__init__` builds: uncalibrated origin,
default slot geometry. -/
def initSkillLib : SkillLib :=
  { inventory_start := none, slot_width := 42, slot_height := 36,
    slots_per_row := 4 }

/-- Embedding of `SkillLibrary.get_slot_center` (skills.py lines 33-54):
raises when the inventory origin is uncalibrated, else
`row = slot // slots_per_row`, `col = slot % slots_per_row`,
`x = start_x + col*slot_width + slot_width//2`,
`y = start_y + row*slot_height + slot_height//2`. -/
def get_slot_center (lib : SkillLib) (slot : Int) :
    Except String (Int × Int) :=
  match lib.inventory_start with
  | none =>
    .error "Inventory not calibrated. Run calibrate_inventory() first"
  | some (sx, sy) =>
    let row := Int.fdiv slot lib.slots_per_row
    let col := Int.fmod slot lib.slots_per_row
    .ok (sx + col * lib.slot_width + Int.fdiv lib.slot_width 2,
         sy + row * lib.slot_height + Int.fdiv lib.slot_height 2)

/-- Embedding of `SkillLibrary.click_inventory_slot` (skills.py lines
56-73): `try: (x,y) = get_slot_center(slot); click(x, y, relative=True);
return True; except: return False`.  The `except` also catches the
`ValueError` that `click` raises when no window config is available. -/
def click_inventory_slot (lib : SkillLib) (windowConfig : Option Region)
    (offset : Int × Int) (sim : SimOutcome) (slot : Int) : Bool :=
  match (do
      let c ← get_slot_center lib slot
      let _ ← click windowConfig c.1 c.2 true true offset sim
      pure () : Except String Unit) with
  | .ok _ => true
  | .error _ => false

/-- Embedding of `SkillLibrary.use_item_on_item` (skills.py lines
118-147), with the two `find_item_visual` results supplied as oracles
(each is the `Option Int` that the locate helper produced for its item).
When either is `None` the skill fails; otherwise both inventory-slot
clicks are performed — their boolean results are discarded — and the
skill returns `True`. -/
def use_item_on_item (lib : SkillLib) (windowConfig : Option Region)
    (off1 off2 : Int × Int) (sim1 sim2 : SimOutcome)
    (slot1 slot2 : Option Int) : Bool :=
  match slot1, slot2 with
  | some a, some b =>
    let _ := click_inventory_slot lib windowConfig off1 sim1 a
    let _ := click_inventory_slot lib windowConfig off2 sim2 b
    true
  | _, _ => false

/-- Embedding of `SkillLibrary.count_logs_in_inventory` (skills.py lines
197-220): a failed frame grab returns 0; otherwise
`count = int(response.strip()) if response else 0` inside `try/except`,
with the `except` branch returning 0. -/
def count_logs_in_inventory (screenshotOk : Bool)
    (clientAvailable : Bool) (providerResponse : Option String) : Int :=
  if !screenshotOk then 0
  else
    match analyze_screenshot clientAvailable providerResponse with
    | some response =>
      if pyTruthy response then
        match pyInt response with
        | some count => count
        | none => 0
      else 0
    | none => 0

/-! ## firemaking_agent.py — `FiremakingAgent`

Orchestrator state: `fires_made` and `failures` counters (`running` is
set to `True` before the loop and changed only by external `stop()` /
interrupt, which does not occur in the modelled runs).  The outcome of
one `skill_library.make_fire()` chain — clicks, wait, perception-based
verification, or an exception caught inside `make_one_fire` — is the
per-iteration oracle `Bool`. -/

/-- `config.MAX_RETRIES` (config.py line 38). -/
def MAX_RETRIES : Nat := 3

/-- The counters of `FiremakingAgent.__init__`. -/
structure AgentState where
  fires_made : Nat
  failures : Nat
deriving Repr, DecidableEq

/-- Embedding of `FiremakingAgent.make_one_fire` (firemaking_agent.py
lines 59-89): on success increment `fires_made`; on failure (or caught
exception) increment `failures`; return the outcome. -/
def make_one_fire (s : AgentState) (fireOutcome : Bool) :
    AgentState × Bool :=
  if fireOutcome then
    ({ s with fires_made := s.fires_made + 1 }, true)
  else
    ({ s with failures := s.failures + 1 }, false)

/-- One observable step of the `burn_inventory` loop. -/
inductive Event where
  | countQuery (n : Nat)
  | taskAttempt (ok : Bool)
  | backoffWait
  | interFireWait
deriving Repr, DecidableEq

/-- Why the `burn_inventory` loop ended. -/
inductive StopReason where
  | resourceExhausted
  | retryBudget
  | traceEnded
deriving Repr, DecidableEq

/-- Embedding of the `while self.running:` loop of
`FiremakingAgent.burn_inventory` (firemaking_agent.py lines 91-135).
Each loop iteration consumes one trace element `(logsCount, outcome)`:
`logsCount` is what `count_logs_in_inventory` returned, `outcome` what
the `make_one_fire` chain produced (used only when `logsCount ≠ 0`).
`break` on a zero count is the "No more logs" exit; `break` on
`failures ≥ MAX_RETRIES` is the "Too many failures" exit; a sub-budget
failure waits 2.0s and `continue`s; a success resets `failures` to 0 and
waits 0.5s.  An exhausted trace means the loop would keep polling
(`traceEnded`). -/
def burn_inventory (s : AgentState) (trace : List (Nat × Bool)) :
    AgentState × StopReason × List Event :=
  match trace with
  | [] => (s, .traceEnded, [])
  | (logsCount, outcome) :: rest =>
    if logsCount = 0 then
      (s, .resourceExhausted, [.countQuery logsCount])
    else
      let (s1, success) := make_one_fire s outcome
      if success then
        let (s2, reason, events) :=
          burn_inventory { s1 with failures := 0 } rest
        (s2, reason,
         .countQuery logsCount :: .taskAttempt true :: .interFireWait ::
           events)
      else
        if s1.failures ≥ MAX_RETRIES then
          (s1, .retryBudget, [.countQuery logsCount, .taskAttempt false])
        else
          let (s2, reason, events) := burn_inventory s1 rest
          (s2, reason,
           .countQuery logsCount :: .taskAttempt false :: .backoffWait ::
             events)

/-- Embedding of the fixed-count branch of `FiremakingAgent.run`
(firemaking_agent.py lines 150-161): `for i in range(num_fires):
make_one_fire()`.  The `outcomes` list holds the result of each of the
`num_fires` calls; no counter is reset between iterations. -/
def run_fixed (s : AgentState) (outcomes : List Bool) : AgentState :=
  outcomes.foldl (fun st outcome => (make_one_fire st outcome).1) s

/-! ## Theorems -/

/-- A string that `int()` parses successfully is nonempty, hence truthy. -/
theorem pyTruthy_of_pyInt_some {r : String} {n : Int}
    (h : pyInt r = some n) : pyTruthy r = true := by
  cases hb : r.isEmpty with
  | false => simp [pyTruthy, hb]
  | true =>
    have hre : r = "" := (String.isEmpty_iff r).mp hb
    subst hre
    have h0 : pyInt "" = none := rfl
    rw [h0] at h
    exact Option.noConfusion h

/-- Unfolding `run_fixed` one iteration at a time. -/
theorem run_fixed_cons (s : AgentState) (o : Bool) (rest : List Bool) :
    run_fixed s (o :: rest) = run_fixed (make_one_fire s o).1 rest := rfl

/-- C6: for every ready region and relative point, `get_absolute_coords`
returns exactly origin + relative, with no clamping; with no stored
region it raises the "No window config available" error instead of
returning a value. -/
theorem to_absolute_is_translation :
    (∀ (r : Region) (dx dy : Int),
      get_absolute_coords (some r) dx dy = Except.ok (r.x + dx, r.y + dy)) ∧
    (∀ dx dy : Int,
      get_absolute_coords none dx dy =
        Except.error "No window config available") :=
  ⟨fun _ _ _ => rfl, fun _ _ => rfl⟩

/-- C9: saving a `Region` to the persisted window-config object and
loading it back reproduces the same value in all five fields. -/
theorem region_save_load_roundtrip :
    ∀ r : Region, load_config (save_config r) = some r := by
  intro r
  rfl

/-- C5: in drain-all mode, the count sequence `[5,4,3,2,1,0]` with every
fire attempt succeeding performs exactly 5 task iterations and stops
because the count reached zero. -/
theorem drain_all_exact_iterations :
    (burn_inventory ⟨0, 0⟩
        [(5, true), (4, true), (3, true), (2, true), (1, true), (0, true)]).1
      = ⟨5, 0⟩ ∧
    (burn_inventory ⟨0, 0⟩
        [(5, true), (4, true), (3, true), (2, true), (1, true), (0, true)]).2.1
      = StopReason.resourceExhausted ∧
    ((burn_inventory ⟨0, 0⟩
        [(5, true), (4, true), (3, true), (2, true), (1, true), (0, true)]).2.2.count
        (Event.taskAttempt true)) = 5 := by
  refine ⟨rfl, rfl, ?_⟩
  decide

/-- C10: whenever both locate results are slots, `use_item_on_item`
returns `true` no matter what the two `click_inventory_slot` calls do —
their results are discarded — and in particular with the uncalibrated
default grid every `click_inventory_slot` call returns `false` while the
skill still reports success. -/
theorem use_item_ignores_click_results :
    (∀ (lib : SkillLib) (cfg : Option Region) (off1 off2 : Int × Int)
        (sim1 sim2 : SimOutcome) (a b : Int),
      use_item_on_item lib cfg off1 off2 sim1 sim2 (some a) (some b) = true) ∧
    (∀ (cfg : Option Region) (off : Int × Int) (sim : SimOutcome) (slot : Int),
      click_inventory_slot initSkillLib cfg off sim slot = false) :=
  ⟨fun _ _ _ _ _ _ _ _ => rfl, fun _ _ _ _ => rfl⟩

/-- C1 counterexample: the response `"35"` parses to a slot outside the
valid range `[0, 27]`, yet `find_tinderbox` returns `35` rather than
`None`; and the in-range response `"0"` makes the generic
`find_item_visual` branch return `None` rather than slot `0`. -/
theorem locate_out_of_range_counterexample :
    find_tinderbox true (some "35") = some 35 ∧
    ¬ ((35 : Int) ≤ 27) ∧
    find_item_generic true (some "0") = none := by
  refine ⟨by decide, by decide, by decide⟩

/-- C1 (amended): a response parsing to an integer `n ≥ 0` makes
`find_tinderbox` / `find_logs` return `n` — with no upper-bound check —
while the generic `find_item_visual` branch returns `n` only for
`n > 0` (a parsed `0` is falsy and becomes `None`); a response parsing
to a negative integer, an unparsable response, a failed provider call,
or an unavailable provider all yield `None`, never an exception. -/
theorem locate_item_parsing :
    (∀ (client : Bool) (resp : Option String) (r : String) (n : Int),
      analyze_screenshot client resp = some r → pyInt r = some n →
      find_tinderbox client resp = (if 0 ≤ n then some n else none) ∧
      find_logs client resp = (if 0 ≤ n then some n else none) ∧
      find_item_generic client resp = (if 0 < n then some n else none)) ∧
    (∀ (client : Bool) (resp : Option String) (r : String),
      analyze_screenshot client resp = some r → pyInt r = none →
      find_tinderbox client resp = none ∧ find_logs client resp = none ∧
      find_item_generic client resp = none) ∧
    (∀ client : Bool,
      find_tinderbox client none = none ∧ find_logs client none = none ∧
      find_item_generic client none = none) ∧
    (∀ resp : Option String,
      find_tinderbox false resp = none ∧ find_logs false resp = none ∧
      find_item_generic false resp = none) := by
  refine ⟨?_, ?_, ?_, ?_⟩
  · intro client resp r n hresp hparse
    have ht := pyTruthy_of_pyInt_some hparse
    refine ⟨?_, ?_, ?_⟩
    · simp only [find_tinderbox, hresp, ht, hparse, if_true, ge_iff_le]
    · simp only [find_logs, hresp, ht, hparse, if_true, ge_iff_le]
    · simp only [find_item_generic, hresp, ht, hparse, if_true, ge_iff_le]
      by_cases h0 : 0 < n
      · rw [if_pos ⟨by omega, by omega⟩, if_pos h0]
      · rw [if_neg (by omega), if_neg h0]
  · intro client resp r hresp hparse
    refine ⟨?_, ?_, ?_⟩ <;>
      simp only [find_tinderbox, find_logs, find_item_generic, hresp,
        hparse] <;>
      split <;> rfl
  · intro client
    cases client <;> exact ⟨rfl, rfl, rfl⟩
  · intro resp
    exact ⟨rfl, rfl, rfl⟩

/-- C1 witness: instantiating the amended parsing theorem at the
response `"7"` returns slot 7 from `find_tinderbox`. -/
theorem locate_item_parsing_witness :
    find_tinderbox true (some "7") = some 7 := by
  have h :=
    (locate_item_parsing.1 true (some "7") "7" 7 rfl (by decide)).1
  simpa using h

/-- C2 counterexample: a stored region with `width = 0` makes
`is_ready` return `true`, and coordinate mapping against it returns an
unmapped translation instead of failing. -/
theorem zero_width_region_counterexample :
    is_ready (some { x := 0, y := 0, width := 0, height := 0, title := "" }) = true ∧
    get_absolute_coords (some { x := 0, y := 0, width := 0, height := 0, title := "" }) 3 4 =
      Except.ok (3, 4) :=
  ⟨rfl, rfl⟩

/-- C2 (amended): `is_ready` checks only that a window config is
stored — a region with non-positive width or height is still "ready"
and `get_absolute_coords` maps coordinates against it; only the
detection path discards such candidates (`search_window_keep`), so a
size-invalid region can enter the system through the persisted file. -/
theorem ready_ignores_region_size :
    (∀ r : Region, is_ready (some r) = true) ∧
    is_ready none = false ∧
    (∀ (r : Region) (dx dy : Int),
      get_absolute_coords (some r) dx dy = Except.ok (r.x + dx, r.y + dy)) ∧
    (∀ r : Region, r.width ≤ 0 ∨ r.height ≤ 0 →
      search_window_keep r = false) := by
  refine ⟨fun _ => rfl, rfl, fun _ _ _ => rfl, ?_⟩
  intro r h
  rcases h with h | h <;>
    simp [search_window_keep, Bool.and_eq_false_iff, decide_eq_false_iff_not,
      not_lt] <;> omega

/-- C2 witness: the amended theorem applied to a width-0 region. -/
theorem ready_ignores_region_size_witness :
    search_window_keep { x := 0, y := 0, width := 0, height := 503, title := "RuneLite" } =
      false :=
  ready_ignores_region_size.2.2.2 _ (Or.inl (by decide))

/-- C3 counterexample: in the fixed-count run mode, the outcome sequence
failure, success, failure, failure leaves `failures = 3`, not 2 — the
counter is never reset on success there. -/
theorem fixed_mode_no_reset_counterexample :
    (run_fixed ⟨0, 0⟩ [false, true, false, false]).failures = 3 ∧
    (run_fixed ⟨0, 0⟩ [false, true, false, false]).failures ≠ 2 := by
  decide

/-- C3 (amended): in drain-all mode (`burn_inventory`) any success
resets `failures` to 0, so failure, success, failure, failure leaves
`failures = 2`; in the fixed-count mode (`run_fixed`) the counter is
never reset — it ends at the number of failed outcomes — so the same
sequence leaves `failures = 3`. -/
theorem success_resets_failures_drain_mode :
    (∀ (s : AgentState) (count : Nat) (rest : List (Nat × Bool)),
      count ≠ 0 →
      burn_inventory s ((count, true) :: rest) =
        ((burn_inventory
            { fires_made := s.fires_made + 1, failures := 0 } rest).1,
         (burn_inventory
            { fires_made := s.fires_made + 1, failures := 0 } rest).2.1,
         Event.countQuery count :: Event.taskAttempt true ::
           Event.interFireWait ::
           (burn_inventory
             { fires_made := s.fires_made + 1, failures := 0 } rest).2.2)) ∧
    (∀ (s : AgentState) (outcomes : List Bool),
      (run_fixed s outcomes).failures = s.failures + outcomes.count false) ∧
    (burn_inventory ⟨0, 0⟩
      [(5, false), (5, true), (5, false), (5, false)]).1.failures = 2 ∧
    (run_fixed ⟨0, 0⟩ [false, true, false, false]).failures = 3 := by
  refine ⟨?_, ?_, by decide, by decide⟩
  · intro s count rest hcount
    simp only [burn_inventory, make_one_fire, if_pos, if_neg hcount]
  · intro s outcomes
    induction outcomes generalizing s with
    | nil => simp [run_fixed]
    | cons o rest ih =>
      rw [run_fixed_cons, ih]
      cases o with
      | false => simp [make_one_fire, List.count_cons]; omega
      | true => simp [make_one_fire, List.count_cons]; try omega

/-- C3 witness: the drain-mode reset equation applied to a concrete
iteration. -/
theorem success_resets_failures_drain_mode_witness :
    burn_inventory ⟨2, 1⟩ [(5, true)] =
      (⟨3, 0⟩, StopReason.traceEnded,
       [Event.countQuery 5, Event.taskAttempt true,
        Event.interFireWait]) := by
  rw [success_resets_failures_drain_mode.1 ⟨2, 1⟩ 5 [] (by decide)]
  rfl

/-- C4: starting from a fresh run state, three consecutive task
failures (with nonzero resource counts throughout) stop the drain loop
with the retry-budget reason and `failures = 3`; and a failure before
the budget is reached emits a backoff wait and re-enters the loop on the
remaining trace. -/
theorem retry_budget_exhaustion :
    (∀ c1 c2 c3 : Nat, c1 ≠ 0 → c2 ≠ 0 → c3 ≠ 0 →
      burn_inventory ⟨0, 0⟩ [(c1, false), (c2, false), (c3, false)] =
        (⟨0, 3⟩, StopReason.retryBudget,
         [Event.countQuery c1, Event.taskAttempt false, Event.backoffWait,
          Event.countQuery c2, Event.taskAttempt false, Event.backoffWait,
          Event.countQuery c3, Event.taskAttempt false])) ∧
    (∀ (s : AgentState) (count : Nat) (rest : List (Nat × Bool)),
      count ≠ 0 → s.failures + 1 < MAX_RETRIES →
      burn_inventory s ((count, false) :: rest) =
        ((burn_inventory { s with failures := s.failures + 1 } rest).1,
         (burn_inventory { s with failures := s.failures + 1 } rest).2.1,
         Event.countQuery count :: Event.taskAttempt false ::
           Event.backoffWait ::
           (burn_inventory { s with failures := s.failures + 1 } rest).2.2)) := by
  constructor
  · intro c1 c2 c3 h1 h2 h3
    obtain ⟨k1, rfl⟩ : ∃ k, c1 = k + 1 := ⟨c1 - 1, by omega⟩
    obtain ⟨k2, rfl⟩ : ∃ k, c2 = k + 1 := ⟨c2 - 1, by omega⟩
    obtain ⟨k3, rfl⟩ : ∃ k, c3 = k + 1 := ⟨c3 - 1, by omega⟩
    rfl
  · intro s count rest hcount hbudget
    obtain ⟨k, rfl⟩ : ∃ k, count = k + 1 := ⟨count - 1, by omega⟩
    have key : burn_inventory s ((k + 1, false) :: rest) =
        if s.failures + 1 ≥ MAX_RETRIES then
          ({ fires_made := s.fires_made, failures := s.failures + 1 },
           StopReason.retryBudget,
           [Event.countQuery (k + 1), Event.taskAttempt false])
        else
          ((burn_inventory
              { fires_made := s.fires_made, failures := s.failures + 1 } rest).1,
           (burn_inventory
              { fires_made := s.fires_made, failures := s.failures + 1 } rest).2.1,
           Event.countQuery (k + 1) :: Event.taskAttempt false ::
             Event.backoffWait ::
             (burn_inventory
               { fires_made := s.fires_made, failures := s.failures + 1 }
               rest).2.2) := rfl
    rw [key, if_neg (by omega)]

/-- C4 witness: the retry-budget theorem applied at counts 5, 4, 3. -/
theorem retry_budget_exhaustion_witness :
    burn_inventory ⟨0, 0⟩ [(5, false), (4, false), (3, false)] =
      (⟨0, 3⟩, StopReason.retryBudget,
       [Event.countQuery 5, Event.taskAttempt false, Event.backoffWait,
        Event.countQuery 4, Event.taskAttempt false, Event.backoffWait,
        Event.countQuery 3, Event.taskAttempt false]) :=
  retry_budget_exhaustion.1 5 4 3 (by decide) (by decide) (by decide)

/-- C7 counterexample: the response `"-3"` makes
`count_logs_in_inventory` return the negative count `-3` rather than a
parsed non-negative integer or the safe default 0. -/
theorem count_logs_negative_counterexample :
    count_logs_in_inventory true true (some "-3") = -3 ∧
    (count_logs_in_inventory true true (some "-3") < 0) := by
  refine ⟨by decide, by decide⟩

/-- C7 (amended): `count_logs_in_inventory` parses the response as a
single integer of either sign and returns it; an unparsable or empty
response, a failed provider call, an unavailable provider, or a failed
frame grab all yield 0 — the function is total and never propagates an
error. -/
theorem count_logs_total_behavior :
    (∀ (client : Bool) (resp : Option String) (r : String) (n : Int),
      analyze_screenshot client resp = some r → pyInt r = some n →
      count_logs_in_inventory true client resp = n) ∧
    (∀ (client : Bool) (resp : Option String) (r : String),
      analyze_screenshot client resp = some r → pyInt r = none →
      count_logs_in_inventory true client resp = 0) ∧
    (∀ client : Bool, count_logs_in_inventory true client none = 0) ∧
    (∀ resp : Option String, count_logs_in_inventory true false resp = 0) ∧
    (∀ (client : Bool) (resp : Option String),
      count_logs_in_inventory false client resp = 0) := by
  refine ⟨?_, ?_, ?_, ?_, ?_⟩
  · intro client resp r n hresp hparse
    have ht := pyTruthy_of_pyInt_some hparse
    simp only [count_logs_in_inventory, hresp, ht, hparse, if_true,
      Bool.not_true, Bool.false_eq_true, if_false]
  · intro client resp r hresp hparse
    simp only [count_logs_in_inventory, hresp, hparse, Bool.not_true,
      Bool.false_eq_true, if_false]
    split <;> rfl
  · intro client
    cases client <;> rfl
  · intro resp
    rfl
  · intro client resp
    rfl

/-- C7 witness: the amended theorem applied to the response `"5"`. -/
theorem count_logs_total_behavior_witness :
    count_logs_in_inventory true true (some "5") = 5 :=
  count_logs_total_behavior.1 true (some "5") "5" 5 rfl (by decide)

/-- C8: for every actuation primitive and every input, when the
window-relative coordinates can be resolved (a window config is stored,
or the call is absolute), any outcome of the underlying input-simulation
call — including a failure — leaves the primitive returning normally:
no exception reaches the caller. -/
theorem actuation_failures_swallowed :
    ∀ (cfg : Option Region) (relative : Bool) (x y ex ey : Int)
      (randomize : Bool) (off off2 : Int × Int) (sim : SimOutcome)
      (text key : String),
      (relative = true → cfg.isSome = true) →
      (move_mouse cfg x y relative randomize off sim).toOption.isSome = true ∧
      (click cfg x y relative randomize off sim).toOption.isSome = true ∧
      (right_click cfg x y relative randomize off sim).toOption.isSome = true ∧
      (drag cfg x y ex ey relative randomize off off2 sim).toOption.isSome
        = true ∧
      (type_text text sim).toOption.isSome = true ∧
      (press_key key sim).toOption.isSome = true := by
  intro cfg relative x y ex ey randomize off off2 sim text key hready
  cases relative with
  | false =>
    cases sim <;> exact ⟨rfl, rfl, rfl, rfl, rfl, rfl⟩
  | true =>
    have hsome : cfg.isSome = true := hready rfl
    obtain ⟨c, rfl⟩ := Option.isSome_iff_exists.mp hsome
    cases sim <;> exact ⟨rfl, rfl, rfl, rfl, rfl, rfl⟩

/-- C8 witness: a failing click against a stored region still returns
normally. -/
theorem actuation_failures_swallowed_witness :
    (click (some { x := 0, y := 0, width := 765, height := 503, title := "RuneLite" })
      10 20 true true (1, -1) (SimOutcome.failure "boom")).toOption.isSome = true :=
  (actuation_failures_swallowed
    (some { x := 0, y := 0, width := 765, height := 503, title := "RuneLite" })
    true 10 20 0 0 true (1, -1) (0, 0)
    (SimOutcome.failure "boom") "t" "k" (fun _ => rfl)).2.1

end OsrsAgent
